import Mathlib

/-!
Shallow embedding of the IPC handler core (IPCHandler.h / IPCHandler.c).

Machine integers are modelled as Nat (unsigned) or Int (signed), with the
conversions of the C source made explicit:
  - the uint8_t truncation in IPC_send (line 136) is `% 256`;
  - the int to uint32_t store of aDataSize is `% 2^32`;
  - the uint8_t queueSize increment wraps `% 256`.
C arrays become total functions Nat -> _, with the one out-of-bounds access
that the source can actually perform (IPC_arHandler[255] in IPC_send when no
handler matches) surfaced as `none` in an Option result.
The FreeRTOS call xTaskNotifyGive is external to the core; its pdPASS result
is passed to IPC_send as an explicit boolean oracle.
-/

/-- IPC_MAX_DATA_LENGTH from IPCHandler.h line 48. -/
def IPC_MAX_DATA_LENGTH : Nat := 512

/-- IPC_MSG_QUEUE_LENGTH from IPCHandler.h line 49. -/
def IPC_MSG_QUEUE_LENGTH : Nat := 16

/-- IPC_HANDLER_CNT_MAX = E_IPC_TASK_ID_LAST = UINT8_MAX from IPCHandler.c line 44. -/
def IPC_HANDLER_CNT_MAX : Nat := 255

/-- IPC_eError_t from IPCHandler.h lines 86 to 95. -/
inductive IPC_eError where
  | E_IPC_SUCCESS
  | E_IPC_ERR_EXISTS
  | E_IPC_ERR_CREATE_FAIL
  | E_IPC_ERR_NO_HANDLER
  | E_IPC_ERR_SEND_FAIL
  | E_IPC_ERR_RECV_FAIL
  | E_IPC_RECV_MORE
  deriving DecidableEq

/-- IPC_sMsg_t from IPCHandler.h lines 79 to 84.  The byte array u8Data is a
total function; only indices below IPC_MAX_DATA_LENGTH correspond to the
C array. -/
structure IPC_sMsg_t where
  eIPC_MsgType : Nat
  u8Data : Nat → Nat
  u32DataLen : Nat

/-- IPC_sMsgQueue_t from IPCHandler.c lines 49 to 55.  The uint8_t fields are
Nats; all code paths keep queueTail and queueHead below IPC_MSG_QUEUE_LENGTH. -/
structure IPC_sMsgQueue_t where
  msgQueue : Nat → IPC_sMsg_t
  queueTail : Nat
  queueHead : Nat
  queueSize : Nat

/-- IPC_sHandler_t from IPCHandler.c lines 60 to 65.  TaskHandle_t is opaque;
it is modelled as a Nat with 0 playing the role of NULL. -/
structure IPC_sHandler_t where
  recvId : Nat
  handle : Nat
  queue : IPC_sMsgQueue_t

/-- The static module state of IPCHandler.c lines 76 to 77: the handler array
IPC_arHandler (length IPC_HANDLER_CNT_MAX) and the counter IPC_u8HandlerCnt. -/
structure IPC_State where
  arHandler : Nat → IPC_sHandler_t
  u8HandlerCnt : Nat

/-- A zero message value, as left by zero initialization of the statics. -/
def zeroMsg : IPC_sMsg_t := ⟨0, fun _ => 0, 0⟩

/-- A zero queue value, as left by zero initialization of the statics. -/
def zeroQueue : IPC_sMsgQueue_t := ⟨fun _ => zeroMsg, 0, 0, 0⟩

/-- A zero handler slot, as left by zero initialization of the statics. -/
def zeroHandler : IPC_sHandler_t := ⟨0, 0, zeroQueue⟩

/-- The zero-initialized module state at program start. -/
def zeroState : IPC_State := ⟨fun _ => zeroHandler, 0⟩

/-- IPC_getHandlerIdx, IPCHandler.c lines 234 to 252: linear scan of the first
u8HandlerCnt slots for the first one whose recvId equals taskID; -1 if none. -/
def IPC_getHandlerIdx (s : IPC_State) (taskID : Nat) : Int :=
  match (List.range s.u8HandlerCnt).find? (fun i => (s.arHandler i).recvId == taskID) with
  | some i => (i : Int)
  | none => -1

/-- IPC_initIPCHandler, IPCHandler.c lines 260 to 263. -/
def IPC_initIPCHandler (s : IPC_State) : IPC_State :=
  { s with u8HandlerCnt := 0 }

/-- IPC_createHandler, IPCHandler.c lines 90 to 119.  A NULL handle is 0. -/
def IPC_createHandler (s : IPC_State) (aTaskID : Nat) (aHandle : Nat) :
    IPC_eError × IPC_State :=
  if aHandle = 0 then
    (.E_IPC_ERR_CREATE_FAIL, s)
  else if s.u8HandlerCnt = IPC_HANDLER_CNT_MAX then
    (.E_IPC_ERR_CREATE_FAIL, s)
  else if IPC_getHandlerIdx s aTaskID ≠ -1 then
    (.E_IPC_ERR_EXISTS, s)
  else
    (.E_IPC_SUCCESS,
      { arHandler := fun i =>
          if i = s.u8HandlerCnt then
            { recvId := aTaskID, handle := aHandle,
              queue := { (s.arHandler i).queue with
                          queueSize := 0, queueTail := 0, queueHead := 0 } }
          else s.arHandler i,
        u8HandlerCnt := s.u8HandlerCnt + 1 })

/-- The branch-based index wraparound used for queueTail in IPCHandler.c lines
158 to 165 and for queueHead in lines 210 to 217. -/
def queueAdvance (i : Nat) : Nat :=
  if i = IPC_MSG_QUEUE_LENGTH - 1 then 0 else i + 1

/-- The state change of the successful middle of IPC_send, IPCHandler.c lines
143 to 165: write aType, aDataSize and the first aDataSize payload bytes into
the slot at queueTail, increment queueSize (uint8_t, wraps at 256), and advance
queueTail with the branch-based wraparound of lines 158 to 165. -/
def sendUpdate (s : IPC_State) (handlerIdx aType : Nat) (apData : Nat → Nat)
    (aDataSize : Int) : IPC_State :=
  let queue := (s.arHandler handlerIdx).queue
  let idx := queue.queueTail
  let msg := queue.msgQueue idx
  let msgNew : IPC_sMsg_t :=
    { eIPC_MsgType := aType
      u8Data := fun i => if (i : Int) < aDataSize then apData i else msg.u8Data i
      u32DataLen := (aDataSize % 4294967296).toNat }
  let queueNew : IPC_sMsgQueue_t :=
    { msgQueue := fun j => if j = idx then msgNew else queue.msgQueue j
      queueTail := queueAdvance idx
      queueHead := queue.queueHead
      queueSize := (queue.queueSize + 1) % 256 }
  { s with arHandler := fun i =>
      if i = handlerIdx then { s.arHandler i with queue := queueNew }
      else s.arHandler i }

/-- IPC_send, IPCHandler.c lines 129 to 175.  Line 136 stores the int result
of IPC_getHandlerIdx into a uint8_t, modelled by the truncation `% 256`; the
comparison handlerIdx == -1 on line 137 promotes the uint8_t back to int, so
it compares a value in [0, 255] with -1 and can never hold.  When the
truncated index is 255 the access IPC_arHandler[handlerIdx] on line 143 is one
past the end of the 255-element array: this undefined behaviour is returned as
`none`.  notifyGivePass is the pdPASS result of xTaskNotifyGive (line 167). -/
def IPC_send (s : IPC_State) (aRecv aType : Nat) (apData : Nat → Nat)
    (aDataSize : Int) (notifyGivePass : Bool) :
    Option (IPC_eError × IPC_State) :=
  if (IPC_MAX_DATA_LENGTH : Int) ≤ aDataSize then
    some (.E_IPC_ERR_SEND_FAIL, s)
  else
    let handlerIdx : Nat := ((IPC_getHandlerIdx s aRecv) % 256).toNat
    if (handlerIdx : Int) = -1 then
      some (.E_IPC_ERR_NO_HANDLER, s)
    else if IPC_HANDLER_CNT_MAX ≤ handlerIdx then
      none
    else if notifyGivePass then
      some (.E_IPC_SUCCESS, sendUpdate s handlerIdx aType apData aDataSize)
    else
      some (.E_IPC_ERR_SEND_FAIL, sendUpdate s handlerIdx aType apData aDataSize)

/-- The state change of the successful tail of IPC_receive, IPCHandler.c lines
205 to 217: decrement queueSize and advance queueHead with the branch-based
wraparound of lines 210 to 217. -/
def recvUpdate (s : IPC_State) (handlerIdx : Nat) : IPC_State :=
  let queue := (s.arHandler handlerIdx).queue
  let queueNew : IPC_sMsgQueue_t :=
    { queue with
      queueSize := queue.queueSize - 1
      queueHead := queueAdvance queue.queueHead }
  { s with arHandler := fun i =>
      if i = handlerIdx then { s.arHandler i with queue := queueNew }
      else s.arHandler i }

/-- IPC_receive, IPCHandler.c lines 183 to 227.  Here handlerIdx is a proper
int (line 185), so the -1 check works.  The memcpy on line 204 copies the whole
IPC_sMsg_t at queueHead into the caller buffer; the final comparison on line
219 reads the already decremented queueSize, which equals queueSize - 1 of the
entry state. -/
def IPC_receive (s : IPC_State) (aRecv : Nat) (apBuf : IPC_sMsg_t) :
    IPC_eError × IPC_State × IPC_sMsg_t :=
  let handlerIdx : Int := IPC_getHandlerIdx s aRecv
  if handlerIdx = -1 then
    (.E_IPC_ERR_NO_HANDLER, s, apBuf)
  else
    let queue := (s.arHandler handlerIdx.toNat).queue
    if queue.queueSize = 0 then
      (.E_IPC_ERR_RECV_FAIL, s, apBuf)
    else if queue.queueSize - 1 > 0 then
      (.E_IPC_RECV_MORE, recvUpdate s handlerIdx.toNat, queue.msgQueue queue.queueHead)
    else
      (.E_IPC_SUCCESS, recvUpdate s handlerIdx.toNat, queue.msgQueue queue.queueHead)

/-- State after registering an inbox for task id 1 with wake handle 7 in the
freshly initialized module state. -/
def regS : IPC_State := (IPC_createHandler zeroState 1 7).2

/-- One step of a send chain to task 1: a message of type t with empty payload,
with the task notification reported as delivered. -/
def chainStep (s : IPC_State) (t : Nat) : IPC_State :=
  match IPC_send s 1 t (fun _ => 0) 0 true with
  | some p => p.2
  | none => s

/-- State after n consecutive sends of message types 0, 1, ... , n - 1 to the
inbox of task 1, starting from the fresh registration regS. -/
def chainState : Nat → IPC_State
  | 0 => regS
  | n + 1 => chainStep (chainState n) n

/-- n-fold repetition of IPC_receive for task r, threading state and buffer. -/
def receiveIter (r : Nat) : Nat → IPC_State × IPC_sMsg_t → IPC_State × IPC_sMsg_t
  | 0, p => p
  | n + 1, p => receiveIter r n (IPC_receive p.1 r p.2).2

/-- A registry holding 254 inboxes with task ids 2, 3, ... , 255, one short of
IPC_HANDLER_CNT_MAX. -/
def fullState : IPC_State :=
  { arHandler := fun i => { recvId := i + 2, handle := 1, queue := zeroQueue },
    u8HandlerCnt := 254 }

/-- State holding one message (type 3, two payload bytes 40, 41) in the inbox
of task 1. -/
def oneMsgS : IPC_State :=
  ((IPC_send regS 1 3 (fun i => i + 40) 2 true).getD (.E_IPC_SUCCESS, regS)).2

/-- Claim C2 (code bug): with no inbox registered for receiver 1,
IPC_getHandlerIdx returns -1, but IPC_send stores that int into a uint8_t, so
the equality test with -1 can never fire; the call then reaches the
out-of-bounds access IPC_arHandler[255] (modelled as none) instead of
returning E_IPC_ERR_NO_HANDLER with no state modified, as the claim states. -/
theorem C2_send_unregistered_oob :
    IPC_getHandlerIdx zeroState 1 = -1 ∧
    IPC_send zeroState 1 0 (fun _ => 0) 0 true = none := ⟨rfl, rfl⟩

/-- Claim C1 (code bug): on a freshly registered inbox, the first
IPC_MSG_QUEUE_LENGTH = 16 sends succeed and fill the queue, but the 17th send
does not fail: it also returns E_IPC_SUCCESS, pushes queueSize to 17, and
overwrites the oldest unread message in slot 0 (its type was 0, it becomes
16), instead of failing with a QueueFull error and leaving the queue
unchanged as the claim requires. -/
theorem C1_capacity_overflow_not_rejected :
    (∀ n, n < 17 →
      (IPC_send (chainState n) 1 n (fun _ => 0) 0 true).map Prod.fst =
        some .E_IPC_SUCCESS) ∧
    ((chainState 16).arHandler 0).queue.queueSize = IPC_MSG_QUEUE_LENGTH ∧
    ((chainState 17).arHandler 0).queue.queueSize = 17 ∧
    (((chainState 16).arHandler 0).queue.msgQueue 0).eIPC_MsgType = 0 ∧
    (((chainState 17).arHandler 0).queue.msgQueue 0).eIPC_MsgType = 16 := by
  decide

/-- Claim C3 (code bug): after 17 successful sends and 0 successful receives
on one inbox, queueSize is 17, which equals successful sends minus successful
receives but lies outside [0, IPC_MSG_QUEUE_LENGTH]: the claimed invariant
count <= QUEUE_CAPACITY is violated because IPC_send never checks fullness. -/
theorem C3_count_exceeds_capacity :
    (∀ n, n < 17 →
      (IPC_send (chainState n) 1 n (fun _ => 0) 0 true).map Prod.fst =
        some .E_IPC_SUCCESS) ∧
    ((chainState 17).arHandler 0).queue.queueSize = 17 ∧
    ¬ ((chainState 17).arHandler 0).queue.queueSize ≤ IPC_MSG_QUEUE_LENGTH := by
  decide

/-- Claim C9 counterexample: starting from a registry that holds 254 inboxes,
a successful register of task 1 fills the registry, and the immediately
following duplicate register of task 1 with a non-null handle returns
E_IPC_ERR_CREATE_FAIL (Exhausted), not E_IPC_ERR_EXISTS as the claim states;
the registry state is still unchanged by the rejected call. -/
theorem C9_duplicate_register_counterexample :
    (IPC_createHandler fullState 1 7).1 = .E_IPC_SUCCESS ∧
    (IPC_createHandler (IPC_createHandler fullState 1 7).2 1 9).1 =
      .E_IPC_ERR_CREATE_FAIL ∧
    ¬ (IPC_createHandler (IPC_createHandler fullState 1 7).2 1 9).1 =
      .E_IPC_ERR_EXISTS ∧
    (IPC_createHandler (IPC_createHandler fullState 1 7).2 1 9).2.u8HandlerCnt =
      (IPC_createHandler fullState 1 7).2.u8HandlerCnt := by
  decide

/-- Claim C4 counterexample: with one message (type 0) already queued, two
further successful sends A (type 1) then B (type 2) with no receive in
between are followed by a successful receive that returns the pre-existing
type 0 message, not A: the next two receives do not return A then B. -/
theorem C4_fifo_counterexample :
    (∀ n, n < 3 →
      (IPC_send (chainState n) 1 n (fun _ => 0) 0 true).map Prod.fst =
        some .E_IPC_SUCCESS) ∧
    (IPC_receive (chainState 3) 1 zeroMsg).1 = .E_IPC_RECV_MORE ∧
    (IPC_receive (chainState 3) 1 zeroMsg).2.2.eIPC_MsgType = 0 ∧
    ¬ (IPC_receive (chainState 3) 1 zeroMsg).2.2.eIPC_MsgType = 1 := by
  decide

lemma queueAdvance_ne {i : Nat} (h : i < IPC_MSG_QUEUE_LENGTH) :
    queueAdvance i ≠ i := by
  unfold queueAdvance IPC_MSG_QUEUE_LENGTH at *
  split <;> omega

lemma queueAdvance_lt {i : Nat} (h : i < IPC_MSG_QUEUE_LENGTH) :
    queueAdvance i < IPC_MSG_QUEUE_LENGTH := by
  unfold queueAdvance IPC_MSG_QUEUE_LENGTH at *
  split <;> omega

lemma queueAdvance_eq_mod {i : Nat} (h : i < IPC_MSG_QUEUE_LENGTH) :
    queueAdvance i = (i + 1) % IPC_MSG_QUEUE_LENGTH := by
  unfold queueAdvance IPC_MSG_QUEUE_LENGTH at *
  split <;> omega

lemma getHandlerIdx_congr (s sNew : IPC_State)
    (hcnt : sNew.u8HandlerCnt = s.u8HandlerCnt)
    (hid : ∀ i, (sNew.arHandler i).recvId = (s.arHandler i).recvId) (t : Nat) :
    IPC_getHandlerIdx sNew t = IPC_getHandlerIdx s t := by
  unfold IPC_getHandlerIdx
  rw [hcnt]
  have hp : (fun i => (sNew.arHandler i).recvId == t) =
      (fun i => (s.arHandler i).recvId == t) := funext fun i => by rw [hid]
  rw [hp]

lemma sendUpdate_cnt (s : IPC_State) (k ty : Nat) (d : Nat → Nat) (sz : Int) :
    (sendUpdate s k ty d sz).u8HandlerCnt = s.u8HandlerCnt := rfl

lemma sendUpdate_recvId (s : IPC_State) (k ty : Nat) (d : Nat → Nat) (sz : Int)
    (i : Nat) :
    ((sendUpdate s k ty d sz).arHandler i).recvId = (s.arHandler i).recvId := by
  unfold sendUpdate
  by_cases h : i = k <;> simp [h]

lemma recvUpdate_recvId (s : IPC_State) (k i : Nat) :
    ((recvUpdate s k).arHandler i).recvId = (s.arHandler i).recvId := by
  unfold recvUpdate
  by_cases h : i = k <;> simp [h]

lemma getHandlerIdx_sendUpdate (s : IPC_State) (k ty : Nat) (d : Nat → Nat)
    (sz : Int) (t : Nat) :
    IPC_getHandlerIdx (sendUpdate s k ty d sz) t = IPC_getHandlerIdx s t :=
  getHandlerIdx_congr s (sendUpdate s k ty d sz) (sendUpdate_cnt s k ty d sz)
    (fun i => sendUpdate_recvId s k ty d sz i) t

lemma getHandlerIdx_recvUpdate (s : IPC_State) (k t : Nat) :
    IPC_getHandlerIdx (recvUpdate s k) t = IPC_getHandlerIdx s t :=
  getHandlerIdx_congr s (recvUpdate s k) rfl (fun i => recvUpdate_recvId s k i) t

lemma sendUpdate_queue (s : IPC_State) (k ty : Nat) (d : Nat → Nat) (sz : Int) :
    ((sendUpdate s k ty d sz).arHandler k).queue =
      { msgQueue := fun j =>
          if j = (s.arHandler k).queue.queueTail then
            { eIPC_MsgType := ty
              u8Data := fun i => if (i : Int) < sz then d i
                else ((s.arHandler k).queue.msgQueue
                        (s.arHandler k).queue.queueTail).u8Data i
              u32DataLen := (sz % 4294967296).toNat }
          else (s.arHandler k).queue.msgQueue j
        queueTail := queueAdvance (s.arHandler k).queue.queueTail
        queueHead := (s.arHandler k).queue.queueHead
        queueSize := ((s.arHandler k).queue.queueSize + 1) % 256 } := by
  simp [sendUpdate]

lemma recvUpdate_queue (s : IPC_State) (k : Nat) :
    ((recvUpdate s k).arHandler k).queue =
      { msgQueue := (s.arHandler k).queue.msgQueue
        queueTail := (s.arHandler k).queue.queueTail
        queueHead := queueAdvance (s.arHandler k).queue.queueHead
        queueSize := (s.arHandler k).queue.queueSize - 1 } := by
  simp [recvUpdate]

lemma IPC_send_found (s : IPC_State) (r ty : Nat) (d : Nat → Nat) (sz : Int)
    (nf : Bool) (k : Nat)
    (hk : IPC_getHandlerIdx s r = (k : Int)) (hk255 : k < 255) (hsz : sz < 512) :
    IPC_send s r ty d sz nf =
      some ((if nf then IPC_eError.E_IPC_SUCCESS else .E_IPC_ERR_SEND_FAIL),
            sendUpdate s k ty d sz) := by
  have hmod : ((k : Int) % 256) = (k : Int) :=
    Int.emod_eq_of_lt (by positivity) (by exact_mod_cast Nat.lt_of_lt_of_le hk255 (by norm_num))
  simp only [IPC_send, IPC_MAX_DATA_LENGTH, IPC_HANDLER_CNT_MAX, hk, hmod,
    Int.toNat_natCast]
  rw [if_neg (by omega), if_neg (by omega), if_neg (by omega)]
  cases nf <;> rfl

lemma IPC_receive_found (s : IPC_State) (r : Nat) (buf : IPC_sMsg_t) (k : Nat)
    (hk : IPC_getHandlerIdx s r = (k : Int))
    (hne : (s.arHandler k).queue.queueSize ≠ 0) :
    IPC_receive s r buf =
      ((if (s.arHandler k).queue.queueSize - 1 > 0 then IPC_eError.E_IPC_RECV_MORE
        else .E_IPC_SUCCESS),
       recvUpdate s k,
       (s.arHandler k).queue.msgQueue (s.arHandler k).queue.queueHead) := by
  simp only [IPC_receive, hk, Int.toNat_natCast]
  rw [if_neg (by omega), if_neg hne]
  split <;> simp_all

lemma IPC_receive_empty (s : IPC_State) (r : Nat) (buf : IPC_sMsg_t) (k : Nat)
    (hk : IPC_getHandlerIdx s r = (k : Int))
    (hz : (s.arHandler k).queue.queueSize = 0) :
    IPC_receive s r buf = (.E_IPC_ERR_RECV_FAIL, s, buf) := by
  simp only [IPC_receive, hk, Int.toNat_natCast]
  rw [if_neg (by omega), if_pos hz]

/-- Claim C5: IPC_send rejects a payload as too large exactly when
aDataSize >= IPC_MAX_DATA_LENGTH: any such send fails with E_IPC_ERR_SEND_FAIL
(the PayloadTooLarge outcome of the source) before any state change, while a
send of length IPC_MAX_DATA_LENGTH - 1 = 511 passes the size check and
succeeds on a registered, non-full receiver. -/
theorem C5_payload_boundary (s : IPC_State) (r k ty : Nat) (d : Nat → Nat)
    (hk : IPC_getHandlerIdx s r = (k : Int)) (hk255 : k < 255)
    (hnonfull : (s.arHandler k).queue.queueSize < IPC_MSG_QUEUE_LENGTH) :
    (∀ (s0 : IPC_State) (r0 ty0 : Nat) (d0 : Nat → Nat) (sz : Int) (nf : Bool),
        (IPC_MAX_DATA_LENGTH : Int) ≤ sz →
        IPC_send s0 r0 ty0 d0 sz nf = some (.E_IPC_ERR_SEND_FAIL, s0)) ∧
    (IPC_send s r ty d 511 true).map Prod.fst = some .E_IPC_SUCCESS := by
  constructor
  · intro s0 r0 ty0 d0 sz nf hbig
    simp only [IPC_send]
    rw [if_pos hbig]
  · rw [IPC_send_found s r ty d 511 true k hk hk255 (by norm_num)]
    rfl

/-- Claim C6: on a registered inbox with a non-empty queue, IPC_receive copies
the message stored at queueHead out to the caller, advances queueHead modulo
IPC_MSG_QUEUE_LENGTH, decrements queueSize by one, and returns E_IPC_RECV_MORE
exactly when the decremented count is still positive and E_IPC_SUCCESS exactly
when it reaches zero. -/
theorem C6_receive_nonempty (s : IPC_State) (r : Nat) (buf : IPC_sMsg_t)
    (k : Nat) (hk : IPC_getHandlerIdx s r = (k : Int))
    (hne : (s.arHandler k).queue.queueSize ≠ 0)
    (hhd : (s.arHandler k).queue.queueHead < IPC_MSG_QUEUE_LENGTH) :
    IPC_receive s r buf =
      ((if (s.arHandler k).queue.queueSize - 1 > 0 then IPC_eError.E_IPC_RECV_MORE
        else .E_IPC_SUCCESS),
       recvUpdate s k,
       (s.arHandler k).queue.msgQueue (s.arHandler k).queue.queueHead) ∧
    ((recvUpdate s k).arHandler k).queue.queueHead =
      ((s.arHandler k).queue.queueHead + 1) % IPC_MSG_QUEUE_LENGTH ∧
    ((recvUpdate s k).arHandler k).queue.queueSize =
      (s.arHandler k).queue.queueSize - 1 ∧
    ((IPC_receive s r buf).1 = .E_IPC_RECV_MORE ↔
      0 < (s.arHandler k).queue.queueSize - 1) ∧
    ((IPC_receive s r buf).1 = .E_IPC_SUCCESS ↔
      (s.arHandler k).queue.queueSize - 1 = 0) := by
  have hfound := IPC_receive_found s r buf k hk hne
  refine ⟨hfound, ?_, ?_, ?_, ?_⟩
  · rw [recvUpdate_queue]
    exact queueAdvance_eq_mod hhd
  · rw [recvUpdate_queue]
  · rw [hfound]
    split <;> rename_i hgt <;> simp <;> omega
  · rw [hfound]
    split <;> rename_i hgt <;> simp <;> omega

/-- Claim C7: when the enqueue completes but the task notification reports
failure, IPC_send returns E_IPC_ERR_SEND_FAIL (the WakeFailed outcome) and the
enqueued message is not rolled back: the resulting state is exactly the state
of a fully successful send, and from an empty aligned queue a later receive
still returns the stored message. -/
theorem C7_wake_failed_not_rolled_back (s : IPC_State) (r k ty : Nat)
    (d : Nat → Nat) (sz : Int)
    (hk : IPC_getHandlerIdx s r = (k : Int)) (hk255 : k < 255)
    (hsz0 : 0 ≤ sz) (hsz1 : sz < 512)
    (hnonfull : (s.arHandler k).queue.queueSize < IPC_MSG_QUEUE_LENGTH) :
    IPC_send s r ty d sz false =
      some (.E_IPC_ERR_SEND_FAIL, sendUpdate s k ty d sz) ∧
    IPC_send s r ty d sz true =
      some (.E_IPC_SUCCESS, sendUpdate s k ty d sz) ∧
    ((s.arHandler k).queue.queueSize = 0 →
      (s.arHandler k).queue.queueHead = (s.arHandler k).queue.queueTail →
      ∀ buf, (IPC_receive (sendUpdate s k ty d sz) r buf).1 = .E_IPC_SUCCESS ∧
        (IPC_receive (sendUpdate s k ty d sz) r buf).2.2.eIPC_MsgType = ty ∧
        (IPC_receive (sendUpdate s k ty d sz) r buf).2.2.u32DataLen = sz.toNat ∧
        ∀ i : Nat, (i : Int) < sz →
          (IPC_receive (sendUpdate s k ty d sz) r buf).2.2.u8Data i = d i) := by
  refine ⟨?_, ?_, ?_⟩
  · rw [IPC_send_found s r ty d sz false k hk hk255 hsz1]
    rfl
  · rw [IPC_send_found s r ty d sz true k hk hk255 hsz1]
    rfl
  · intro hzero hht buf
    have hidx : IPC_getHandlerIdx (sendUpdate s k ty d sz) r = (k : Int) := by
      rw [getHandlerIdx_sendUpdate]; exact hk
    have hq := sendUpdate_queue s k ty d sz
    have hsize : ((sendUpdate s k ty d sz).arHandler k).queue.queueSize = 1 := by
      rw [hq, hzero]
    have hrecv := IPC_receive_found (sendUpdate s k ty d sz) r buf k hidx
      (by rw [hsize]; omega)
    rw [hsize] at hrecv
    norm_num at hrecv
    have hmsg : ((sendUpdate s k ty d sz).arHandler k).queue.msgQueue
        (((sendUpdate s k ty d sz).arHandler k).queue.queueHead) =
        { eIPC_MsgType := ty
          u8Data := fun i => if (i : Int) < sz then d i
            else ((s.arHandler k).queue.msgQueue
                    (s.arHandler k).queue.queueTail).u8Data i
          u32DataLen := (sz % 4294967296).toNat } := by
      rw [hq]
      simp [hht]
    rw [hrecv, hmsg]
    refine ⟨rfl, rfl, ?_, ?_⟩
    · show (sz % 4294967296).toNat = sz.toNat
      rw [Int.emod_eq_of_lt hsz0 (by omega)]
    · intro i hi
      simp [hi]

/-- Claim C8: on a registered inbox with an empty queue, IPC_receive returns
E_IPC_ERR_RECV_FAIL (QueueEmpty) and leaves state and caller buffer unchanged,
so any number of repeated failing receives is idempotent on the queue state
and every repetition returns E_IPC_ERR_RECV_FAIL. -/
theorem C8_empty_receive_idempotent (s : IPC_State) (r : Nat)
    (buf : IPC_sMsg_t) (k : Nat)
    (hk : IPC_getHandlerIdx s r = (k : Int))
    (hz : (s.arHandler k).queue.queueSize = 0) :
    IPC_receive s r buf = (.E_IPC_ERR_RECV_FAIL, s, buf) ∧
    (∀ n, receiveIter r n (s, buf) = (s, buf)) ∧
    (∀ n, (IPC_receive (receiveIter r n (s, buf)).1 r
            (receiveIter r n (s, buf)).2).1 = .E_IPC_ERR_RECV_FAIL) := by
  have hone : IPC_receive s r buf = (.E_IPC_ERR_RECV_FAIL, s, buf) :=
    IPC_receive_empty s r buf k hk hz
  have hiter : ∀ n, receiveIter r n (s, buf) = (s, buf) := by
    intro n
    induction n with
    | zero => rfl
    | succ m ih =>
        show receiveIter r m (IPC_receive s r buf).2 = (s, buf)
        rw [hone]
        exact ih
  refine ⟨hone, hiter, ?_⟩
  intro n
  rw [hiter n, hone]

/-- Claim C10: whenever IPC_receive fails with E_IPC_ERR_NO_HANDLER or with
E_IPC_ERR_RECV_FAIL, the caller buffer apBuf is returned entirely unchanged
and the module state is untouched. -/
theorem C10_receive_failure_frame (s : IPC_State) (r : Nat) (buf : IPC_sMsg_t)
    (h : (IPC_receive s r buf).1 = .E_IPC_ERR_NO_HANDLER ∨
         (IPC_receive s r buf).1 = .E_IPC_ERR_RECV_FAIL) :
    (IPC_receive s r buf).2.2 = buf ∧ (IPC_receive s r buf).2.1 = s := by
  by_cases h1 : IPC_getHandlerIdx s r = -1
  · constructor <;> simp [IPC_receive, h1]
  · by_cases h2 :
        (s.arHandler (IPC_getHandlerIdx s r).toNat).queue.queueSize = 0
    · constructor <;> simp [IPC_receive, h1, h2]
    · exfalso
      rcases h with h | h <;> simp [IPC_receive, h1, h2] at h <;>
        split at h <;> simp_all


lemma sendUpdate_size (s : IPC_State) (k ty : Nat) (d : Nat → Nat) (sz : Int) :
    ((sendUpdate s k ty d sz).arHandler k).queue.queueSize =
      ((s.arHandler k).queue.queueSize + 1) % 256 := by
  simp [sendUpdate]

lemma sendUpdate_head (s : IPC_State) (k ty : Nat) (d : Nat → Nat) (sz : Int) :
    ((sendUpdate s k ty d sz).arHandler k).queue.queueHead =
      (s.arHandler k).queue.queueHead := by
  simp [sendUpdate]

lemma sendUpdate_tail (s : IPC_State) (k ty : Nat) (d : Nat → Nat) (sz : Int) :
    ((sendUpdate s k ty d sz).arHandler k).queue.queueTail =
      queueAdvance (s.arHandler k).queue.queueTail := by
  simp [sendUpdate]

lemma sendUpdate_msg_tail (s : IPC_State) (k ty : Nat) (d : Nat → Nat)
    (sz : Int) :
    ((sendUpdate s k ty d sz).arHandler k).queue.msgQueue
        (s.arHandler k).queue.queueTail =
      { eIPC_MsgType := ty
        u8Data := fun i => if (i : Int) < sz then d i
          else ((s.arHandler k).queue.msgQueue
                  (s.arHandler k).queue.queueTail).u8Data i
        u32DataLen := (sz % 4294967296).toNat } := by
  simp [sendUpdate]

lemma sendUpdate_msg_ne (s : IPC_State) (k ty : Nat) (d : Nat → Nat) (sz : Int)
    (j : Nat) (hj : j ≠ (s.arHandler k).queue.queueTail) :
    ((sendUpdate s k ty d sz).arHandler k).queue.msgQueue j =
      (s.arHandler k).queue.msgQueue j := by
  simp [sendUpdate, hj]

lemma recvUpdate_size (s : IPC_State) (k : Nat) :
    ((recvUpdate s k).arHandler k).queue.queueSize =
      (s.arHandler k).queue.queueSize - 1 := by
  simp [recvUpdate]

lemma recvUpdate_head (s : IPC_State) (k : Nat) :
    ((recvUpdate s k).arHandler k).queue.queueHead =
      queueAdvance (s.arHandler k).queue.queueHead := by
  simp [recvUpdate]

lemma recvUpdate_msg (s : IPC_State) (k j : Nat) :
    ((recvUpdate s k).arHandler k).queue.msgQueue j =
      (s.arHandler k).queue.msgQueue j := by
  simp [recvUpdate]

/-- Claim C4 (amended): for two successful sends A then B to a registered
inbox whose queue is empty and aligned (queueSize = 0, queueHead = queueTail),
with no receive in between, the next two successful receives return A first
and B second, matching kind, length and payload bytes. -/
theorem C4_fifo_from_empty (s : IPC_State) (r k tyA tyB : Nat)
    (dA dB : Nat → Nat) (szA szB : Int) (buf1 buf2 : IPC_sMsg_t)
    (hk : IPC_getHandlerIdx s r = (k : Int)) (hk255 : k < 255)
    (hz : (s.arHandler k).queue.queueSize = 0)
    (hht : (s.arHandler k).queue.queueHead = (s.arHandler k).queue.queueTail)
    (htl : (s.arHandler k).queue.queueTail < IPC_MSG_QUEUE_LENGTH)
    (hA0 : 0 ≤ szA) (hA1 : szA < 512) (hB0 : 0 ≤ szB) (hB1 : szB < 512) :
    ∃ s1 s2 s3 s4 m1 m2,
      IPC_send s r tyA dA szA true = some (.E_IPC_SUCCESS, s1) ∧
      IPC_send s1 r tyB dB szB true = some (.E_IPC_SUCCESS, s2) ∧
      IPC_receive s2 r buf1 = (.E_IPC_RECV_MORE, s3, m1) ∧
      m1.eIPC_MsgType = tyA ∧ m1.u32DataLen = szA.toNat ∧
      (∀ i : Nat, (i : Int) < szA → m1.u8Data i = dA i) ∧
      IPC_receive s3 r buf2 = (.E_IPC_SUCCESS, s4, m2) ∧
      m2.eIPC_MsgType = tyB ∧ m2.u32DataLen = szB.toNat ∧
      (∀ i : Nat, (i : Int) < szB → m2.u8Data i = dB i) := by
  have hne : queueAdvance (s.arHandler k).queue.queueTail ≠
      (s.arHandler k).queue.queueTail := queueAdvance_ne htl
  have hsend1 : IPC_send s r tyA dA szA true =
      some (.E_IPC_SUCCESS, sendUpdate s k tyA dA szA) := by
    rw [IPC_send_found s r tyA dA szA true k hk hk255 hA1]
    rfl
  have hidx1 : IPC_getHandlerIdx (sendUpdate s k tyA dA szA) r = (k : Int) := by
    rw [getHandlerIdx_sendUpdate]; exact hk
  have hsend2 : IPC_send (sendUpdate s k tyA dA szA) r tyB dB szB true =
      some (.E_IPC_SUCCESS,
        sendUpdate (sendUpdate s k tyA dA szA) k tyB dB szB) := by
    rw [IPC_send_found _ r tyB dB szB true k hidx1 hk255 hB1]
    rfl
  have hidx2 : IPC_getHandlerIdx
      (sendUpdate (sendUpdate s k tyA dA szA) k tyB dB szB) r = (k : Int) := by
    rw [getHandlerIdx_sendUpdate]; exact hidx1
  have hs1size : ((sendUpdate s k tyA dA szA).arHandler k).queue.queueSize = 1 := by
    rw [sendUpdate_size, hz]
  have hs1head : ((sendUpdate s k tyA dA szA).arHandler k).queue.queueHead =
      (s.arHandler k).queue.queueTail := by
    rw [sendUpdate_head, hht]
  have hs1tail : ((sendUpdate s k tyA dA szA).arHandler k).queue.queueTail =
      queueAdvance (s.arHandler k).queue.queueTail := sendUpdate_tail s k tyA dA szA
  have hs2size : ((sendUpdate (sendUpdate s k tyA dA szA) k tyB dB
      szB).arHandler k).queue.queueSize = 2 := by
    rw [sendUpdate_size, hs1size]
  have hs2head : ((sendUpdate (sendUpdate s k tyA dA szA) k tyB dB
      szB).arHandler k).queue.queueHead = (s.arHandler k).queue.queueTail := by
    rw [sendUpdate_head, hs1head]
  have hrecv1 := IPC_receive_found
    (sendUpdate (sendUpdate s k tyA dA szA) k tyB dB szB) r buf1 k hidx2
    (by rw [hs2size]; omega)
  rw [hs2size, hs2head] at hrecv1
  norm_num at hrecv1
  have hmsg1 : ((sendUpdate (sendUpdate s k tyA dA szA) k tyB dB
      szB).arHandler k).queue.msgQueue (s.arHandler k).queue.queueTail =
      { eIPC_MsgType := tyA
        u8Data := fun i => if (i : Int) < szA then dA i
          else ((s.arHandler k).queue.msgQueue
                  (s.arHandler k).queue.queueTail).u8Data i
        u32DataLen := (szA % 4294967296).toNat } := by
    rw [sendUpdate_msg_ne _ k tyB dB szB _ (by rw [hs1tail]; exact fun hc => hne hc.symm),
      sendUpdate_msg_tail]
  rw [hmsg1] at hrecv1
  have hidx3 : IPC_getHandlerIdx (recvUpdate
      (sendUpdate (sendUpdate s k tyA dA szA) k tyB dB szB) k) r = (k : Int) := by
    rw [getHandlerIdx_recvUpdate]; exact hidx2
  have hs3size : ((recvUpdate (sendUpdate (sendUpdate s k tyA dA szA) k tyB dB
      szB) k).arHandler k).queue.queueSize = 1 := by
    rw [recvUpdate_size, hs2size]
  have hs3head : ((recvUpdate (sendUpdate (sendUpdate s k tyA dA szA) k tyB dB
      szB) k).arHandler k).queue.queueHead =
      queueAdvance (s.arHandler k).queue.queueTail := by
    rw [recvUpdate_head, hs2head]
  have hrecv2 := IPC_receive_found
    (recvUpdate (sendUpdate (sendUpdate s k tyA dA szA) k tyB dB szB) k)
    r buf2 k hidx3 (by rw [hs3size]; omega)
  rw [hs3size, hs3head] at hrecv2
  norm_num at hrecv2
  have hmsg2 : ((recvUpdate (sendUpdate (sendUpdate s k tyA dA szA) k tyB dB
      szB) k).arHandler k).queue.msgQueue
      (queueAdvance (s.arHandler k).queue.queueTail) =
      { eIPC_MsgType := tyB
        u8Data := fun i => if (i : Int) < szB then dB i
          else (((sendUpdate s k tyA dA szA).arHandler k).queue.msgQueue
                  (queueAdvance (s.arHandler k).queue.queueTail)).u8Data i
        u32DataLen := (szB % 4294967296).toNat } := by
    rw [recvUpdate_msg]
    have := sendUpdate_msg_tail (sendUpdate s k tyA dA szA) k tyB dB szB
    rw [hs1tail] at this
    exact this
  rw [hmsg2] at hrecv2
  refine ⟨_, _, _, _, _, _, hsend1, hsend2, hrecv1, rfl, ?_, ?_, hrecv2,
    rfl, ?_, ?_⟩
  · show (szA % 4294967296).toNat = szA.toNat
    rw [Int.emod_eq_of_lt hA0 (by omega)]
  · intro i hi
    simp [hi]
  · show (szB % 4294967296).toNat = szB.toNat
    rw [Int.emod_eq_of_lt hB0 (by omega)]
  · intro i hi
    simp [hi]

lemma getHandlerIdx_ne_neg_one (s : IPC_State) (tid i : Nat)
    (hi : i < s.u8HandlerCnt) (hr : (s.arHandler i).recvId = tid) :
    IPC_getHandlerIdx s tid ≠ -1 := by
  unfold IPC_getHandlerIdx
  cases hfd : (List.range s.u8HandlerCnt).find?
      (fun j => (s.arHandler j).recvId == tid) with
  | some j =>
      show ((j : Nat) : Int) ≠ -1
      omega
  | none =>
      rw [List.find?_eq_none] at hfd
      have hcontra := hfd i (List.mem_range.mpr hi)
      simp [hr] at hcontra

/-- Claim C9 (amended): after a successful IPC_createHandler for a task id,
an immediate second IPC_createHandler with the same task id and any non-null
handle returns E_IPC_ERR_EXISTS and leaves the whole registry state unchanged,
provided the first registration did not fill the registry; when it did fill it
(registered count reached IPC_HANDLER_CNT_MAX), the second call instead fails
first with E_IPC_ERR_CREATE_FAIL, still leaving the state unchanged. -/
theorem C9_duplicate_register (s : IPC_State) (tid hd hd2 : Nat)
    (hfst : (IPC_createHandler s tid hd).1 = .E_IPC_SUCCESS)
    (hhd2 : hd2 ≠ 0)
    (hcnt : s.u8HandlerCnt + 1 ≠ IPC_HANDLER_CNT_MAX) :
    IPC_createHandler (IPC_createHandler s tid hd).2 tid hd2 =
      (.E_IPC_ERR_EXISTS, (IPC_createHandler s tid hd).2) := by
  by_cases hz : hd = 0
  · simp [IPC_createHandler, hz] at hfst
  · by_cases hmax : s.u8HandlerCnt = IPC_HANDLER_CNT_MAX
    · simp [IPC_createHandler, hz, hmax] at hfst
    · by_cases hex : IPC_getHandlerIdx s tid ≠ -1
      · simp [IPC_createHandler, hz, hmax, hex] at hfst
      · have hsnd : (IPC_createHandler s tid hd).2 =
            { arHandler := fun i =>
                if i = s.u8HandlerCnt then
                  { recvId := tid, handle := hd,
                    queue := { (s.arHandler i).queue with
                                queueSize := 0, queueTail := 0, queueHead := 0 } }
                else s.arHandler i,
              u8HandlerCnt := s.u8HandlerCnt + 1 } := by
          simp [IPC_createHandler, hz, hmax, hex]
        rw [hsnd]
        have hfind := getHandlerIdx_ne_neg_one
          { arHandler := fun i =>
              if i = s.u8HandlerCnt then
                { recvId := tid, handle := hd,
                  queue := { (s.arHandler i).queue with
                              queueSize := 0, queueTail := 0, queueHead := 0 } }
              else s.arHandler i,
            u8HandlerCnt := s.u8HandlerCnt + 1 } tid s.u8HandlerCnt
          (Nat.lt_succ_self _) (by simp)
        simp [IPC_createHandler, hhd2, hcnt, hfind]

/-- Witness for C4_fifo_from_empty at the concrete fresh inbox regS. -/
theorem C4_fifo_from_empty_witness :
    ∃ s1 s2 s3 s4 m1 m2,
      IPC_send regS 1 5 (fun i => i + 10) 2 true = some (.E_IPC_SUCCESS, s1) ∧
      IPC_send s1 1 6 (fun i => i + 20) 3 true = some (.E_IPC_SUCCESS, s2) ∧
      IPC_receive s2 1 zeroMsg = (.E_IPC_RECV_MORE, s3, m1) ∧
      m1.eIPC_MsgType = 5 ∧ m1.u32DataLen = (2 : Int).toNat ∧
      (∀ i : Nat, (i : Int) < 2 → m1.u8Data i = i + 10) ∧
      IPC_receive s3 1 zeroMsg = (.E_IPC_SUCCESS, s4, m2) ∧
      m2.eIPC_MsgType = 6 ∧ m2.u32DataLen = (3 : Int).toNat ∧
      (∀ i : Nat, (i : Int) < 3 → m2.u8Data i = i + 20) :=
  C4_fifo_from_empty regS 1 0 5 6 (fun i => i + 10) (fun i => i + 20) 2 3
    zeroMsg zeroMsg (by decide) (by decide) (by decide) (by decide)
    (by decide) (by decide) (by decide) (by decide) (by decide)

/-- Witness for C5_payload_boundary at the concrete fresh inbox regS. -/
theorem C5_payload_boundary_witness :
    (∀ (s0 : IPC_State) (r0 ty0 : Nat) (d0 : Nat → Nat) (sz : Int) (nf : Bool),
        (IPC_MAX_DATA_LENGTH : Int) ≤ sz →
        IPC_send s0 r0 ty0 d0 sz nf = some (.E_IPC_ERR_SEND_FAIL, s0)) ∧
    (IPC_send regS 1 2 (fun _ => 7) 511 true).map Prod.fst =
      some .E_IPC_SUCCESS :=
  C5_payload_boundary regS 1 0 2 (fun _ => 7) (by decide) (by decide)
    (by decide)

/-- Witness for C6_receive_nonempty at the one-message state oneMsgS. -/
theorem C6_receive_nonempty_witness :
    IPC_receive oneMsgS 1 zeroMsg =
      ((if (oneMsgS.arHandler 0).queue.queueSize - 1 > 0 then
          IPC_eError.E_IPC_RECV_MORE else .E_IPC_SUCCESS),
       recvUpdate oneMsgS 0,
       (oneMsgS.arHandler 0).queue.msgQueue
         (oneMsgS.arHandler 0).queue.queueHead) ∧
    ((recvUpdate oneMsgS 0).arHandler 0).queue.queueHead =
      ((oneMsgS.arHandler 0).queue.queueHead + 1) % IPC_MSG_QUEUE_LENGTH ∧
    ((recvUpdate oneMsgS 0).arHandler 0).queue.queueSize =
      (oneMsgS.arHandler 0).queue.queueSize - 1 ∧
    ((IPC_receive oneMsgS 1 zeroMsg).1 = .E_IPC_RECV_MORE ↔
      0 < (oneMsgS.arHandler 0).queue.queueSize - 1) ∧
    ((IPC_receive oneMsgS 1 zeroMsg).1 = .E_IPC_SUCCESS ↔
      (oneMsgS.arHandler 0).queue.queueSize - 1 = 0) :=
  C6_receive_nonempty oneMsgS 1 zeroMsg 0 (by decide) (by decide) (by decide)

/-- Witness for C7_wake_failed_not_rolled_back at the fresh inbox regS. -/
theorem C7_wake_failed_not_rolled_back_witness :
    IPC_send regS 1 4 (fun i => i + 30) 1 false =
      some (.E_IPC_ERR_SEND_FAIL, sendUpdate regS 0 4 (fun i => i + 30) 1) ∧
    IPC_send regS 1 4 (fun i => i + 30) 1 true =
      some (.E_IPC_SUCCESS, sendUpdate regS 0 4 (fun i => i + 30) 1) ∧
    ((regS.arHandler 0).queue.queueSize = 0 →
      (regS.arHandler 0).queue.queueHead = (regS.arHandler 0).queue.queueTail →
      ∀ buf, (IPC_receive (sendUpdate regS 0 4 (fun i => i + 30) 1) 1 buf).1 =
          .E_IPC_SUCCESS ∧
        (IPC_receive (sendUpdate regS 0 4 (fun i => i + 30) 1) 1
            buf).2.2.eIPC_MsgType = 4 ∧
        (IPC_receive (sendUpdate regS 0 4 (fun i => i + 30) 1) 1
            buf).2.2.u32DataLen = (1 : Int).toNat ∧
        ∀ i : Nat, (i : Int) < 1 →
          (IPC_receive (sendUpdate regS 0 4 (fun i => i + 30) 1) 1
            buf).2.2.u8Data i = i + 30) :=
  C7_wake_failed_not_rolled_back regS 1 0 4 (fun i => i + 30) 1 (by decide)
    (by decide) (by decide) (by decide) (by decide)

/-- Witness for C8_empty_receive_idempotent at the fresh inbox regS. -/
theorem C8_empty_receive_idempotent_witness :
    IPC_receive regS 1 zeroMsg = (.E_IPC_ERR_RECV_FAIL, regS, zeroMsg) ∧
    (∀ n, receiveIter 1 n (regS, zeroMsg) = (regS, zeroMsg)) ∧
    (∀ n, (IPC_receive (receiveIter 1 n (regS, zeroMsg)).1 1
            (receiveIter 1 n (regS, zeroMsg)).2).1 = .E_IPC_ERR_RECV_FAIL) :=
  C8_empty_receive_idempotent regS 1 zeroMsg 0 (by decide) (by decide)

/-- Witness for C9_duplicate_register on the freshly initialized registry. -/
theorem C9_duplicate_register_witness :
    IPC_createHandler (IPC_createHandler zeroState 1 7).2 1 9 =
      (.E_IPC_ERR_EXISTS, (IPC_createHandler zeroState 1 7).2) :=
  C9_duplicate_register zeroState 1 7 9 (by decide) (by decide) (by decide)

/-- Witness for C10_receive_failure_frame on the empty registry. -/
theorem C10_receive_failure_frame_witness :
    (IPC_receive zeroState 1 zeroMsg).2.2 = zeroMsg ∧
    (IPC_receive zeroState 1 zeroMsg).2.1 = zeroState :=
  C10_receive_failure_frame zeroState 1 zeroMsg (Or.inl (by decide))
